import Mathlib

/-!
Shallow embedding of the simulated sensing-and-alerting engine of
`src/src/App.jsx` (the only source file with engine logic).

Modelling conventions:
* JavaScript numbers are modelled as rationals `ℚ`; all the constants of the
  source (`0.68`, `4.5`, `9000`, ...) are exact decimals.
* Calls to `Math.random()` are modelled by explicit parameters carrying the
  drawn value (one per draw, each intended in `[0,1)`); the engine logic is a
  deterministic function of those draws.
* `Math.exp` is modelled by an abstract function parameter `expf : ℚ → ℚ`;
  every claim below holds for an arbitrary `expf`, which is exactly the role
  `Math.exp` plays in the source (a fixed real function applied pointwise).
* React state (`useState`/`useRef`) becomes an explicit `EngineState` record;
  each effect/callback of the source becomes a state-transition function.
* Display-only text (`toLocaleTimeString`, `toFixed` interpolation, zone/rack
  label strings, `peakIdx` which only feeds those labels) is collapsed into a
  single `msg : String` field: no claim concerns the formatted text.
-/

namespace Exi

/-- `N_SENSORS = 120` (App.jsx line 4). -/
def N_SENSORS : ℚ := 120

/-- `T_BASE = 19.2` (App.jsx line 6). -/
def T_BASE : ℚ := 19.2

/-- Alert severity levels appearing in the source: auto alerts use
`"CRITICAL"`/`"WARNING"`, `induce` uses `"BREACH"`, `clearAll` uses
`"CLEAR"`. -/
inductive Level where
  | WARNING
  | CRITICAL
  | BREACH
  | CLEAR
deriving DecidableEq, Repr

/-- A breach record as built by `induce` (App.jsx lines 467-470):
`{id, pos, w, int, dur, t, label}`.  The source field `int` is named
`intensity` here (`int` is kept free for readability). -/
structure Breach where
  id : Nat
  pos : ℚ
  w : ℚ
  intensity : ℚ
  dur : ℚ
  t : ℚ
  label : String
deriving DecidableEq, Repr

/-- An alert record: source fields `id`, `ts`, `lvl` plus display-only text
fields collapsed into `msg`. -/
structure Alert where
  id : Nat
  ts : ℚ
  lvl : Level
  msg : String
deriving DecidableEq, Repr

/-- The engine's mutable state: the `useState` arrays and lists plus the
`useRef` baselines and id counters of `App` (App.jsx lines 316-335). -/
structure EngineState where
  baseline : List ℚ
  baseDp : List ℚ
  temps : List ℚ
  dpArr : List ℚ
  rackPwr : List ℚ
  breaches : List Breach
  alerts : List Alert
  breachId : Nat
  alertId : Nat
deriving DecidableEq, Repr

/-- `[{new alert}, ...prev.slice(0, 29)]`: prepend at the head, keep at most
29 of the previous entries (App.jsx lines 385/392, 472/479, 486/491). -/
def pushAlert (a : Alert) (prev : List Alert) : List Alert :=
  a :: prev.take 29

/-- `temps.map((t, i) => t - baselineRef.current[i])` (App.jsx lines 378 and
425), for arrays of equal length. -/
def deltasOf (temps baseline : List ℚ) : List ℚ :=
  (temps.zip baseline).map (fun p => p.1 - p.2)

/-- The live-breach filter at the start of a tick:
`breachesRef.current.filter(b => now - b.t < b.dur)` (App.jsx line 343). -/
def liveBreaches (now : ℚ) (breaches : List Breach) : List Breach :=
  breaches.filter (fun b => decide (now - b.t < b.dur))

/-- Per-sensor temperature target (App.jsx lines 348-352): baseline plus
noise, then for each live breach within the cutoff `dist < b.w * 2` add the
Gaussian plume term `b.int * exp(-0.5 * (dist / (b.w * 0.5)) ** 2)` with
`dist = |i - b.pos|`. The random draw is `n`. -/
def tempTarget (expf : ℚ → ℚ) (live : List Breach) (bl n i : ℚ) : ℚ :=
  live.foldl
    (fun target b =>
      if |i - b.pos| < b.w * 2 then
        target + b.intensity * expf (-0.5 * (|i - b.pos| / (b.w * 0.5)) ^ 2)
      else target)
    (bl + (n - 0.5) * 0.2)

/-- The temperature-array update of one tick
(`setTemps(prev => prev.map((t, i) => ... t * 0.68 + target * 0.32))`,
App.jsx lines 347-354), recursing over previous readings, baselines and the
per-sensor random draws in lockstep (the engine keeps all three at length
`N_SENSORS`). -/
def updateTemps (expf : ℚ → ℚ) (live : List Breach) :
    ℚ → List ℚ → List ℚ → List ℚ → List ℚ
  | i, t :: ts, bl :: bls, n :: ns =>
      (t * 0.68 + tempTarget expf live bl n i * 0.32) ::
        updateTemps expf live (i + 1) ts bls ns
  | _, _, _, _ => []

/-- Per-zone pressure target (App.jsx lines 357-362): baseline plus noise,
minus for every live breach
`max(0, 1 - dist / (N_SENSORS / 3)) * (b.int / 14) * 9` with
`dist = |b.pos - zone|`, `zone = (i + 0.5) * (N_SENSORS / 4)`. -/
def dpTarget (live : List Breach) (base n i : ℚ) : ℚ :=
  live.foldl
    (fun target b =>
      target - max 0 (1 - |b.pos - (i + 0.5) * (N_SENSORS / 4)| / (N_SENSORS / 3))
        * (b.intensity / 14) * 9)
    (base + (n - 0.5) * 0.7)

/-- The pressure-array update of one tick
(`setDpArr(prev => prev.map((dp, i) => ... dp * 0.58 + target * 0.42))`,
App.jsx lines 356-364). -/
def updateDp (live : List Breach) : ℚ → List ℚ → List ℚ → List ℚ → List ℚ
  | i, dp :: dps, base :: bases, n :: ns =>
      (dp * 0.58 + dpTarget live base n i * 0.42) ::
        updateDp live (i + 1) dps bases ns
  | _, _, _, _ => []

/-- The rack-power update of one tick
(`setRackPwr(prev => prev.map(v => v * 0.97 + (65 + Math.random() * 28) * 0.03))`,
App.jsx line 366). -/
def updateRack : List ℚ → List ℚ → List ℚ
  | v :: vs, n :: ns => (v * 0.97 + (65 + n * 28) * 0.03) :: updateRack vs ns
  | _, _ => []

/-- One simulation tick (the `setInterval` body, App.jsx lines 341-371):
drop expired breaches, then update the three signal arrays.  `tempNoise`,
`dpNoise`, `rackNoise` carry the `Math.random()` draws of this tick. -/
def tick (expf : ℚ → ℚ) (now : ℚ) (tempNoise dpNoise rackNoise : List ℚ)
    (s : EngineState) : EngineState :=
  let live := liveBreaches now s.breaches
  { s with
    breaches := live
    temps := updateTemps expf live 0 s.temps s.baseline tempNoise
    dpArr := updateDp live 0 s.dpArr s.baseDp dpNoise
    rackPwr := updateRack s.rackPwr rackNoise }

/-- The auto alert built at App.jsx lines 385-392: severity `CRITICAL` when
`maxDelta > 7`, else `WARNING`; timestamped `Date.now()`. -/
def mkThermal (id : Nat) (now maxDelta : ℚ) : Alert :=
  { id := id, ts := now
    lvl := if 7 < maxDelta then Level.CRITICAL else Level.WARNING
    msg := "Thermal anomaly above baseline" }

/-- The suppression test `prev[0] && Date.now() - prev[0].ts < 9000`
(App.jsx line 384): true iff the log is nonempty and its head is younger
than 9000 ms. -/
def suppressed (now : ℚ) (alerts : List Alert) : Bool :=
  match alerts with
  | [] => false
  | a :: _ => decide (now - a.ts < 9000)

/-- The alert-detection effect (App.jsx lines 377-395): compute
`maxDelta = Math.max(...deltas)` (`none` models the minus-infinity of an
empty spread, on which `> 4.5` is false); if it exceeds `4.5`, bump the id
counter, then either leave the log unchanged (suppressed) or push a new
thermal alert. -/
def autoAlert (now : ℚ) (s : EngineState) : EngineState :=
  match (deltasOf s.temps s.baseline).max? with
  | none => s
  | some maxDelta =>
    if 4.5 < maxDelta then
      let aid := s.alertId + 1
      if suppressed now s.alerts then { s with alertId := aid }
      else { s with alertId := aid
                    alerts := pushAlert (mkThermal aid now maxDelta) s.alerts }
    else s

/-- The breach record `induce` appends (App.jsx lines 467-470); `rw`, `ri`,
`rd` are the three `Math.random()` draws for width, intensity and
duration. -/
def mkBreach (id : Nat) (pos : ℚ) (label : String) (rw ri rd now : ℚ) : Breach :=
  { id := id, pos := pos, w := 4 + rw * 3, intensity := 9 + ri * 5
    dur := 55000 + rd * 25000, t := now, label := label }

/-- The BREACH alert `induce` pushes (App.jsx lines 472-479). -/
def mkBreachAlert (id : Nat) (now : ℚ) : Alert :=
  { id := id, ts := now, lvl := Level.BREACH
    msg := "Containment breach — thermal excursion detected" }

/-- `induce(pos, label)` (App.jsx lines 465-480): append one breach to the
active set and unconditionally push one BREACH alert; no validation of
`pos` anywhere on the path. -/
def induce (pos : ℚ) (label : String) (rw ri rd now : ℚ)
    (s : EngineState) : EngineState :=
  let bid := s.breachId + 1
  let aid := s.alertId + 1
  { s with
    breachId := bid
    breaches := s.breaches ++ [mkBreach bid pos label rw ri rd now]
    alertId := aid
    alerts := pushAlert (mkBreachAlert aid now) s.alerts }

/-- The CLEAR alert `clearAll` pushes (App.jsx lines 486-491). -/
def mkClearAlert (id : Nat) (now : ℚ) : Alert :=
  { id := id, ts := now, lvl := Level.CLEAR
    msg := "All breaches cleared — returning to baseline" }

/-- `clearAll()` (App.jsx lines 482-492): empty the active set and push one
CLEAR alert. -/
def clearAll (now : ℚ) (s : EngineState) : EngineState :=
  let aid := s.alertId + 1
  { s with
    breaches := []
    alertId := aid
    alerts := pushAlert (mkClearAlert aid now) s.alerts }

/-- `Math.min(1, Math.max(0, x))` as used for the three sub-scores
(App.jsx lines 428, 430, 432). -/
def clamp01 (x : ℚ) : ℚ := min 1 (max 0 x)

/-- `maxDelta = Math.max(0, ...deltas)` of the derived metrics
(App.jsx line 426). -/
def maxDeltaOf (s : EngineState) : ℚ :=
  (deltasOf s.temps s.baseline).foldl max 0

/-- `thermalScore = Math.min(1, Math.max(0, (maxDelta - 1) / 10))`
(App.jsx line 428). -/
def thermalScoreOf (maxDelta : ℚ) : ℚ := clamp01 ((maxDelta - 1) / 10)

/-- `dpDrop = dpArr.reduce((acc, dp, i) => acc + (baseDpRef.current[i] - dp), 0) / 4`
(App.jsx line 429). -/
def dpDropOf (s : EngineState) : ℚ :=
  ((s.dpArr.zip s.baseDp).map (fun p => p.2 - p.1)).sum / 4

/-- `dpScore = Math.min(1, Math.max(0, dpDrop / 16))` (App.jsx line 430). -/
def dpScoreOf (s : EngineState) : ℚ := clamp01 (dpDropOf s / 16)

/-- `rackMean = temps.slice(10, 110).reduce((a, b) => a + b, 0) / 100`
(App.jsx line 431). -/
def rackMeanOf (s : EngineState) : ℚ :=
  ((s.temps.drop 10).take 100).sum / 100

/-- `rackScore = Math.min(1, Math.max(0, (rackMean - T_BASE - 1) / 6))`
(App.jsx line 432). -/
def rackScoreOf (s : EngineState) : ℚ :=
  clamp01 ((rackMeanOf s - T_BASE - 1) / 6)

/-- `bari = Math.min(1, 0.5 * thermalScore + 0.3 * dpScore + 0.2 * rackScore)`
(App.jsx line 433). -/
def bariOf (thermalScore dpScore rackScore : ℚ) : ℚ :=
  min 1 (0.5 * thermalScore + 0.3 * dpScore + 0.2 * rackScore)

/-- `bariLabel` thresholds (App.jsx line 436): `< 0.3` ALL CLEAR,
`< 0.55` ELEVATED, `< 0.8` HIGH RISK, else CRITICAL. -/
def classify (bari : ℚ) : String :=
  if bari < 0.3 then "ALL CLEAR"
  else if bari < 0.55 then "ELEVATED"
  else if bari < 0.8 then "HIGH RISK"
  else "CRITICAL"

/-- The bundle of derived risk metrics (App.jsx lines 425-436). -/
structure Risk where
  thermalScore : ℚ
  dpScore : ℚ
  rackScore : ℚ
  bari : ℚ
  label : String
deriving DecidableEq, Repr

/-- The derived-metrics block as one pure function of the state
(App.jsx lines 425-436). -/
def computeRisk (s : EngineState) : Risk :=
  { thermalScore := thermalScoreOf (maxDeltaOf s)
    dpScore := dpScoreOf s
    rackScore := rackScoreOf s
    bari := bariOf (thermalScoreOf (maxDeltaOf s)) (dpScoreOf s) (rackScoreOf s)
    label := classify
      (bariOf (thermalScoreOf (maxDeltaOf s)) (dpScoreOf s) (rackScoreOf s)) }

/-- An empty engine (all arrays empty, no breaches, no alerts), used for
concrete instantiations. -/
def emptyEngine : EngineState :=
  { baseline := [], baseDp := [], temps := [], dpArr := [], rackPwr := []
    breaches := [], alerts := [], breachId := 0, alertId := 0 }

/-- Spec-side per-sensor target, written from the spec's words for the
refinement comparison of the tick formula: "target = baseline[i] +
uniform_noise(±0.1) + Σ over active breaches b where |i - b.position| <
2·b.width of b.intensity · exp(-0.5 · ((i - b.position) / (0.5·b.width))²)"
(the noise draw `n` yields the uniform noise `(n - 0.5) * 0.2 ∈ ±0.1`). -/
def specTempTarget (expf : ℚ → ℚ) (live : List Breach) (bl n i : ℚ) : ℚ :=
  bl + (n - 0.5) * 0.2 +
    ((live.filter (fun b => decide (|i - b.pos| < 2 * b.w))).map
      (fun b => b.intensity * expf (-0.5 * ((i - b.pos) / (0.5 * b.w)) ^ 2))).sum

/-- Spec-side temperature update, written from the spec's words:
"New reading = 0.68·previous + 0.32·target". -/
def specUpdateTemps (expf : ℚ → ℚ) (live : List Breach) :
    ℚ → List ℚ → List ℚ → List ℚ → List ℚ
  | i, t :: ts, bl :: bls, n :: ns =>
      (0.68 * t + 0.32 * specTempTarget expf live bl n i) ::
        specUpdateTemps expf live (i + 1) ts bls ns
  | _, _, _, _ => []

/-! ### Helper lemmas (shared) -/

lemma pushAlert_length_le (a : Alert) (l : List Alert) :
    (pushAlert a l).length ≤ 30 := by
  simp only [pushAlert, List.length_cons, List.length_take]
  omega

lemma suppressed_cons_young (now : ℚ) (a : Alert) (rest : List Alert)
    (h : now - a.ts < 9000) : suppressed now (a :: rest) = true := by
  simp [suppressed, h]

lemma suppressed_nil (now : ℚ) : suppressed now [] = false := rfl

lemma autoAlert_of_suppressed (s : EngineState) (now m : ℚ)
    (hmax : (deltasOf s.temps s.baseline).max? = some m) (h45 : 4.5 < m)
    (hsup : suppressed now s.alerts = true) :
    autoAlert now s = { s with alertId := s.alertId + 1 } := by
  simp [autoAlert, hmax, h45, hsup]

lemma autoAlert_of_emit (s : EngineState) (now m : ℚ)
    (hmax : (deltasOf s.temps s.baseline).max? = some m) (h45 : 4.5 < m)
    (hsup : suppressed now s.alerts = false) :
    autoAlert now s =
      { s with alertId := s.alertId + 1
               alerts := pushAlert (mkThermal (s.alertId + 1) now m) s.alerts } := by
  simp [autoAlert, hmax, h45, hsup]

lemma foldl_cond_add (P : Breach → Prop) [DecidablePred P] (f : Breach → ℚ) :
    ∀ (l : List Breach) (a : ℚ),
      l.foldl (fun acc b => if P b then acc + f b else acc) a
        = a + ((l.filter (fun b => decide (P b))).map f).sum := by
  intro l
  induction l with
  | nil => intro a; simp
  | cons b l ih =>
    intro a
    by_cases h : P b
    · simp [List.filter_cons, h, ih]
      ring
    · simp [List.filter_cons, h, ih]

lemma tempTarget_eq_spec (expf : ℚ → ℚ) (live : List Breach) (bl n i : ℚ) :
    tempTarget expf live bl n i = specTempTarget expf live bl n i := by
  unfold tempTarget specTempTarget
  rw [foldl_cond_add (P := fun b => |i - b.pos| < b.w * 2)
    (f := fun b => b.intensity * expf (-0.5 * (|i - b.pos| / (b.w * 0.5)) ^ 2))]
  congr 1
  rw [List.filter_congr (fun b _ => decide_eq_decide.mpr (by rw [mul_comm]))]
  refine congrArg List.sum (List.map_congr_left ?_)
  intro b _
  have harg : (|i - b.pos| / (b.w * 0.5)) ^ 2 = ((i - b.pos) / (0.5 * b.w)) ^ 2 := by
    rw [div_pow, div_pow, sq_abs, mul_comm]
  rw [harg]

/-! ### Claim theorems -/

/-- C3: every call to `induce` succeeds unconditionally — whatever the
position, label, random draws, time and prior state (in particular whatever
the age of the most recent alert), exactly one new breach is appended to the
active set and exactly one BREACH-level alert is pushed at the head of the
alert log; no suppression test is on the path. -/
theorem induce_always_succeeds (pos : ℚ) (label : String) (rw ri rd now : ℚ)
    (s : EngineState) :
    (induce pos label rw ri rd now s).breaches
        = s.breaches ++ [mkBreach (s.breachId + 1) pos label rw ri rd now] ∧
      (induce pos label rw ri rd now s).alerts
        = pushAlert (mkBreachAlert (s.alertId + 1) now) s.alerts ∧
      (mkBreachAlert (s.alertId + 1) now).lvl = Level.BREACH :=
  ⟨rfl, rfl, rfl⟩

/-- C4: for every engine state, `clearAll` empties the active-breach set
immediately and pushes exactly one CLEAR-level alert at the head of the
alert log. -/
theorem clearAll_empties_and_logs (now : ℚ) (s : EngineState) :
    (clearAll now s).breaches = [] ∧
      (clearAll now s).alerts = pushAlert (mkClearAlert (s.alertId + 1) now) s.alerts ∧
      (mkClearAlert (s.alertId + 1) now).lvl = Level.CLEAR :=
  ⟨rfl, rfl, rfl⟩

/-- C5: a breach is in the tick's active set iff it was in the pre-tick set
and `now - b.t < b.dur`; consequently no breach is ever in the active set at
an evaluation with `now ≥ createdAt + duration`. -/
theorem breach_expiry (expf : ℚ → ℚ) (now : ℚ) (tn dn rn : List ℚ)
    (s : EngineState) :
    (∀ b : Breach,
        b ∈ (tick expf now tn dn rn s).breaches ↔
          b ∈ s.breaches ∧ now - b.t < b.dur) ∧
      (∀ b : Breach, b ∈ (tick expf now tn dn rn s).breaches →
        now < b.t + b.dur) := by
  constructor
  · intro b
    simp [tick, liveBreaches, List.mem_filter]
  · intro b hb
    have h : b ∈ s.breaches ∧ now - b.t < b.dur := by
      simpa [tick, liveBreaches, List.mem_filter] using hb
    linarith [h.2]

/-- C5 witness: a breach created at `t = 0` with `dur = 55000` is in the
active set of a tick at `now = 54999`, and the tick time is before
`createdAt + duration`. -/
theorem breach_expiry_witness :
    mkBreach 1 10 "w" 0 0 0 0 ∈
        (tick (fun _ => 0) 54999 [] [] []
          { emptyEngine with breaches := [mkBreach 1 10 "w" 0 0 0 0] }).breaches ∧
      (54999 : ℚ) < (mkBreach 1 10 "w" 0 0 0 0).t + (mkBreach 1 10 "w" 0 0 0 0).dur := by
  have hmem : mkBreach 1 10 "w" 0 0 0 0 ∈
      ({ emptyEngine with breaches := [mkBreach 1 10 "w" 0 0 0 0] }
        : EngineState).breaches ∧
      (54999 : ℚ) - (mkBreach 1 10 "w" 0 0 0 0).t < (mkBreach 1 10 "w" 0 0 0 0).dur :=
    ⟨List.mem_singleton.mpr rfl, by norm_num [mkBreach]⟩
  refine ⟨?_, ?_⟩
  · exact (breach_expiry (fun _ => 0) 54999 [] [] []
      { emptyEngine with breaches := [mkBreach 1 10 "w" 0 0 0 0] }).1
      (mkBreach 1 10 "w" 0 0 0 0) |>.mpr hmem
  · exact (breach_expiry (fun _ => 0) 54999 [] [] []
      { emptyEngine with breaches := [mkBreach 1 10 "w" 0 0 0 0] }).2
      (mkBreach 1 10 "w" 0 0 0 0)
      ((breach_expiry (fun _ => 0) 54999 [] [] []
        { emptyEngine with breaches := [mkBreach 1 10 "w" 0 0 0 0] }).1
        (mkBreach 1 10 "w" 0 0 0 0) |>.mpr hmem)

/-- C2 counterexample: `induce` called with position `-5`, which is outside
`0 ≤ position < N_SENSORS`, is not rejected: both the active-breach set and
the alert log change, refuting "the call is rejected ... and the engine
state (active breaches and alert log) is unchanged". -/
theorem induce_no_validation_cex :
    ¬ (0 ≤ (-5 : ℚ) ∧ (-5 : ℚ) < N_SENSORS) ∧
      (induce (-5) "Aisle 3" 0 0 0 0 emptyEngine).breaches ≠ emptyEngine.breaches ∧
      (induce (-5) "Aisle 3" 0 0 0 0 emptyEngine).alerts ≠ emptyEngine.alerts := by
  refine ⟨by norm_num [N_SENSORS], by decide, by decide⟩

/-- C2 (amended): `induce` performs no range validation — a call with a
position outside `0 ≤ position < N_SENSORS` is accepted exactly like any
other: the breach is appended carrying the unclamped position and a BREACH
alert is pushed; there is no rejection path and no state-preserving
branch. -/
theorem induce_accepts_out_of_range (pos : ℚ) (label : String)
    (rw ri rd now : ℚ) (s : EngineState)
    (_hout : pos < 0 ∨ N_SENSORS ≤ pos) :
    (induce pos label rw ri rd now s).breaches
        = s.breaches ++ [mkBreach (s.breachId + 1) pos label rw ri rd now] ∧
      (mkBreach (s.breachId + 1) pos label rw ri rd now).pos = pos ∧
      (induce pos label rw ri rd now s).alerts
        = pushAlert (mkBreachAlert (s.alertId + 1) now) s.alerts :=
  ⟨rfl, rfl, rfl⟩

/-- C2 witness: the amended statement instantiated at position `-5` on the
empty engine. -/
theorem induce_accepts_out_of_range_witness :
    (induce (-5) "Aisle 3" 0 0 0 0 emptyEngine).breaches
        = emptyEngine.breaches ++ [mkBreach 1 (-5) "Aisle 3" 0 0 0 0] ∧
      (mkBreach 1 (-5) "Aisle 3" 0 0 0 0).pos = (-5 : ℚ) ∧
      (induce (-5) "Aisle 3" 0 0 0 0 emptyEngine).alerts
        = pushAlert (mkBreachAlert 1 0) emptyEngine.alerts :=
  induce_accepts_out_of_range (-5) "Aisle 3" 0 0 0 0 emptyEngine
    (Or.inl (by norm_num))

/-- C6: the alert log is a bounded head-insertion log — `pushAlert` yields at
most 30 entries with the new entry at the head, evicts the oldest (last)
entry when the log is full, and each of the three writers (auto alert,
`induce`, `clearAll`) keeps the log at 30 entries or fewer. -/
theorem alert_log_bounded :
    (∀ (a : Alert) (l : List Alert),
        (pushAlert a l).length ≤ 30 ∧ (pushAlert a l).head? = some a) ∧
      (∀ (a : Alert) (l : List Alert), l.length = 30 →
        pushAlert a l = a :: l.dropLast) ∧
      (∀ (now : ℚ) (s : EngineState), s.alerts.length ≤ 30 →
        (autoAlert now s).alerts.length ≤ 30) ∧
      (∀ (pos : ℚ) (label : String) (rw ri rd now : ℚ) (s : EngineState),
        (induce pos label rw ri rd now s).alerts.length ≤ 30) ∧
      (∀ (now : ℚ) (s : EngineState), (clearAll now s).alerts.length ≤ 30) := by
  refine ⟨fun a l => ⟨pushAlert_length_le a l, rfl⟩, ?_, ?_, ?_, ?_⟩
  · intro a l h
    simp only [pushAlert, List.dropLast_eq_take, h]
  · intro now s h
    unfold autoAlert
    cases hm : (deltasOf s.temps s.baseline).max? with
    | none => exact h
    | some m =>
      by_cases h45 : (4.5 : ℚ) < m
      · by_cases hsup : suppressed now s.alerts
        · simp only [h45, if_true, hsup]
          exact h
        · simp only [h45, if_true, Bool.not_eq_true] at *
          simp only [hsup, Bool.false_eq_true, if_false]
          exact pushAlert_length_le _ _
      · simp only [h45, if_false]
        exact h
  · intro pos label rw ri rd now s
    exact pushAlert_length_le _ _
  · intro now s
    exact pushAlert_length_le _ _

/-- C6 witness: eviction on a full log of 30 entries, and the auto-alert
writer applied to the empty engine, via the theorem itself. -/
theorem alert_log_bounded_witness :
    pushAlert (mkClearAlert 1 0) (List.replicate 30 (mkClearAlert 1 0))
        = mkClearAlert 1 0 :: (List.replicate 30 (mkClearAlert 1 0)).dropLast ∧
      (autoAlert 0 emptyEngine).alerts.length ≤ 30 :=
  ⟨alert_log_bounded.2.1 (mkClearAlert 1 0) (List.replicate 30 (mkClearAlert 1 0))
      (by simp),
    alert_log_bounded.2.2.1 0 emptyEngine (by decide)⟩

/-- C1: on an evaluation with `maxDelta > 4.5`, if the head alert is younger
than 9000 ms the log is unchanged; otherwise a new alert with level CRITICAL
when `maxDelta > 7` and WARNING otherwise is pushed at the head; and two
above-threshold evaluations less than 9000 ms apart starting from an empty
log produce exactly one auto-alert. -/
theorem auto_alert_debounce :
    (∀ (s : EngineState) (now m : ℚ) (a : Alert) (rest : List Alert),
        (deltasOf s.temps s.baseline).max? = some m → 4.5 < m →
        s.alerts = a :: rest → now - a.ts < 9000 →
        (autoAlert now s).alerts = s.alerts) ∧
      (∀ (s : EngineState) (now m : ℚ),
        (deltasOf s.temps s.baseline).max? = some m → 4.5 < m →
        suppressed now s.alerts = false →
        (autoAlert now s).alerts
            = pushAlert (mkThermal (s.alertId + 1) now m) s.alerts ∧
          (mkThermal (s.alertId + 1) now m).lvl
            = (if 7 < m then Level.CRITICAL else Level.WARNING)) ∧
      (∀ (s : EngineState) (now₁ now₂ m₁ m₂ : ℚ) (temps₂ : List ℚ),
        s.alerts = [] →
        (deltasOf s.temps s.baseline).max? = some m₁ → 4.5 < m₁ →
        (deltasOf temps₂ s.baseline).max? = some m₂ → 4.5 < m₂ →
        now₂ - now₁ < 9000 →
        (autoAlert now₁ s).alerts.length = 1 ∧
          (autoAlert now₂ { autoAlert now₁ s with temps := temps₂ }).alerts
            = (autoAlert now₁ s).alerts) := by
  refine ⟨?_, ?_, ?_⟩
  · intro s now m a rest hmax h45 hal hyoung
    have hsup : suppressed now s.alerts = true := by
      rw [hal]
      exact suppressed_cons_young now a rest hyoung
    rw [autoAlert_of_suppressed s now m hmax h45 hsup]
  · intro s now m hmax h45 hsup
    exact ⟨by rw [autoAlert_of_emit s now m hmax h45 hsup], rfl⟩
  · intro s now₁ now₂ m₁ m₂ temps₂ hnil hmax₁ h45₁ hmax₂ h45₂ hlt
    have hsup₁ : suppressed now₁ s.alerts = false := by rw [hnil]; rfl
    have h₁ := autoAlert_of_emit s now₁ m₁ hmax₁ h45₁ hsup₁
    constructor
    · rw [h₁]
      simp [pushAlert, hnil]
    · have hb : ({ autoAlert now₁ s with temps := temps₂ } : EngineState).baseline
          = s.baseline := by rw [h₁]
      have hmax₂' : (deltasOf
          ({ autoAlert now₁ s with temps := temps₂ } : EngineState).temps
          ({ autoAlert now₁ s with temps := temps₂ } : EngineState).baseline).max?
          = some m₂ := by
        rw [hb]
        exact hmax₂
      have hsup₂ : suppressed now₂
          ({ autoAlert now₁ s with temps := temps₂ } : EngineState).alerts = true := by
        have ha : ({ autoAlert now₁ s with temps := temps₂ } : EngineState).alerts
            = mkThermal (s.alertId + 1) now₁ m₁ :: s.alerts.take 29 := by rw [h₁]; rfl
        rw [ha]
        exact suppressed_cons_young now₂ (mkThermal (s.alertId + 1) now₁ m₁)
          (s.alerts.take 29) hlt
      rw [autoAlert_of_suppressed _ now₂ m₂ hmax₂' h45₂ hsup₂]

/-- C1 witness: two above-threshold evaluations 5000 ms apart on a
single-sensor engine, via the two-excursion clause of the theorem. -/
theorem auto_alert_debounce_witness :
    (autoAlert 0 { emptyEngine with temps := [5], baseline := [0] }).alerts.length = 1 ∧
      (autoAlert 5000
          { autoAlert 0 { emptyEngine with temps := [5], baseline := [0] } with
            temps := [6] }).alerts
        = (autoAlert 0 { emptyEngine with temps := [5], baseline := [0] }).alerts :=
  auto_alert_debounce.2.2 { emptyEngine with temps := [5], baseline := [0] }
    0 5000 5 6 [6] rfl (by simp [deltasOf, List.max?]) (by norm_num)
    (by simp [deltasOf, List.max?]) (by norm_num) (by norm_num)

/-- C10: the 9000 ms suppression is keyed on the most recent alert of any
level — after an `induce` (BREACH head alert) or a `clearAll` (CLEAR head
alert) at time `t`, an evaluation with `maxDelta > 4.5` at any `now` with
`now - t < 9000` leaves the alert log unchanged. -/
theorem user_action_masks_auto :
    (∀ (s : EngineState) (pos : ℚ) (label : String) (rw ri rd t now m : ℚ),
        (deltasOf s.temps s.baseline).max? = some m → 4.5 < m →
        now - t < 9000 →
        (autoAlert now (induce pos label rw ri rd t s)).alerts
          = (induce pos label rw ri rd t s).alerts) ∧
      (∀ (s : EngineState) (t now m : ℚ),
        (deltasOf s.temps s.baseline).max? = some m → 4.5 < m →
        now - t < 9000 →
        (autoAlert now (clearAll t s)).alerts = (clearAll t s).alerts) := by
  constructor
  · intro s pos label rw ri rd t now m hmax h45 hlt
    have hsup : suppressed now (induce pos label rw ri rd t s).alerts = true :=
      suppressed_cons_young now (mkBreachAlert (s.alertId + 1) t)
        (s.alerts.take 29) hlt
    rw [autoAlert_of_suppressed (induce pos label rw ri rd t s) now m hmax h45 hsup]
  · intro s t now m hmax h45 hlt
    have hsup : suppressed now (clearAll t s).alerts = true :=
      suppressed_cons_young now (mkClearAlert (s.alertId + 1) t)
        (s.alerts.take 29) hlt
    rw [autoAlert_of_suppressed (clearAll t s) now m hmax h45 hsup]

/-- C10 witness: a breach induced at `t = 0` and a clear at `t = 0` each
suppress an above-threshold evaluation at `now = 100`. -/
theorem user_action_masks_auto_witness :
    (autoAlert 100
        (induce 10 "Zone A" 0 0 0 0
          { emptyEngine with temps := [5], baseline := [0] })).alerts
      = (induce 10 "Zone A" 0 0 0 0
          { emptyEngine with temps := [5], baseline := [0] }).alerts ∧
    (autoAlert 100 (clearAll 0 { emptyEngine with temps := [5], baseline := [0] })).alerts
      = (clearAll 0 { emptyEngine with temps := [5], baseline := [0] }).alerts :=
  ⟨user_action_masks_auto.1 { emptyEngine with temps := [5], baseline := [0] }
      10 "Zone A" 0 0 0 0 100 5 (by simp [deltasOf, List.max?]) (by norm_num)
      (by norm_num),
    user_action_masks_auto.2 { emptyEngine with temps := [5], baseline := [0] }
      0 100 5 (by simp [deltasOf, List.max?]) (by norm_num) (by norm_num)⟩

/-- C7: the composite risk score `bari` always lies in `[0, 1]`, and with
the pressure and rack sub-scores held fixed it is monotonically
non-decreasing in `maxDelta`. -/
theorem bari_bounded_monotone :
    (∀ s : EngineState, 0 ≤ (computeRisk s).bari ∧ (computeRisk s).bari ≤ 1) ∧
      (∀ d₁ d₂ p r : ℚ, d₁ ≤ d₂ →
        bariOf (thermalScoreOf d₁) p r ≤ bariOf (thermalScoreOf d₂) p r) := by
  have h0 : ∀ x : ℚ, 0 ≤ clamp01 x := fun x => le_min zero_le_one (le_max_left 0 x)
  constructor
  · intro s
    constructor
    · have ht := h0 ((maxDeltaOf s - 1) / 10)
      have hp := h0 (dpDropOf s / 16)
      have hr := h0 ((rackMeanOf s - T_BASE - 1) / 6)
      unfold computeRisk bariOf thermalScoreOf dpScoreOf rackScoreOf
      exact le_min (by norm_num) (by linarith)
    · exact min_le_left _ _
  · intro d₁ d₂ p r h
    have ht : thermalScoreOf d₁ ≤ thermalScoreOf d₂ := by
      unfold thermalScoreOf clamp01
      have hd : (d₁ - 1) / 10 ≤ (d₂ - 1) / 10 := by linarith
      exact min_le_min le_rfl (max_le_max le_rfl hd)
    unfold bariOf
    exact min_le_min le_rfl (by linarith)

/-- C7 witness: the monotonicity clause of the theorem instantiated at
`maxDelta` values `0 ≤ 10` with both other sub-scores `0`. -/
theorem bari_bounded_monotone_witness :
    bariOf (thermalScoreOf 0) 0 0 ≤ bariOf (thermalScoreOf 10) 0 0 :=
  bari_bounded_monotone.2 0 10 0 0 (by norm_num)

/-- C9: the risk computation never reads the rack power array — two states
agreeing on temperatures, pressures and both baselines but with arbitrary
rack power yield identical risk records (all sub-scores, `bari` and the
classification label). -/
theorem rack_power_noninterference (s₁ s₂ : EngineState)
    (ht : s₁.temps = s₂.temps) (hdp : s₁.dpArr = s₂.dpArr)
    (hb : s₁.baseline = s₂.baseline) (hbd : s₁.baseDp = s₂.baseDp) :
    computeRisk s₁ = computeRisk s₂ := by
  unfold computeRisk thermalScoreOf maxDeltaOf deltasOf dpScoreOf dpDropOf
    rackScoreOf rackMeanOf bariOf classify
  rw [ht, hdp, hb, hbd]

/-- C9 witness: the empty engine and the same engine with a rack power
reading of 99 kW produce the same risk record. -/
theorem rack_power_noninterference_witness :
    computeRisk emptyEngine = computeRisk { emptyEngine with rackPwr := [99] } :=
  rack_power_noninterference emptyEngine { emptyEngine with rackPwr := [99] }
    rfl rfl rfl rfl

/-- C8: the tick's temperature update computes, sensor by sensor, exactly
the spec formula — new reading `= 0.68·previous + 0.32·target` with
`target = baseline + noise + Σ` over live breaches within the cutoff
`|i - pos| < 2·width` of the Gaussian term, breaches outside the cutoff
contributing nothing and concurrent breaches adding with no cap — for every
breach set, noise draw and exponential function. -/
theorem signal_tick_formula (expf : ℚ → ℚ) :
    (∀ (live : List Breach) (i : ℚ) (ts bls ns : List ℚ),
        updateTemps expf live i ts bls ns = specUpdateTemps expf live i ts bls ns) ∧
      (∀ (now : ℚ) (tn dn rn : List ℚ) (s : EngineState),
        (tick expf now tn dn rn s).temps
          = specUpdateTemps expf (liveBreaches now s.breaches) 0 s.temps s.baseline tn) := by
  have key : ∀ (live : List Breach) (ts : List ℚ) (i : ℚ) (bls ns : List ℚ),
      updateTemps expf live i ts bls ns = specUpdateTemps expf live i ts bls ns := by
    intro live ts
    induction ts with
    | nil => intro i bls ns; rfl
    | cons t ts ih =>
      intro i bls ns
      cases bls with
      | nil => rfl
      | cons bl bls =>
        cases ns with
        | nil => rfl
        | cons n ns =>
          simp only [updateTemps, specUpdateTemps]
          rw [tempTarget_eq_spec, ih]
          have hhead : t * 0.68 + specTempTarget expf live bl n i * 0.32
              = 0.68 * t + 0.32 * specTempTarget expf live bl n i := by ring
          rw [hhead]
  exact ⟨fun live i ts bls ns => key live ts i bls ns,
    fun now tn dn rn s => key (liveBreaches now s.breaches) s.temps 0 s.baseline tn⟩

end Exi
